import Mathlib

set_option maxRecDepth 100000

/-!
Shallow embedding of the DV Slack Q&A bot (src/app.py and src/bot.py).

Strings are Lean `String`; Python `s.lower().strip()` is modelled by
`pyLower` followed by `pyStrip` (ASCII case folding and ASCII whitespace,
which cover the inputs the program actually handles).
Python `None` is modelled by `Option.none`; Python truthiness of a string
value `x` (`if x:`) is `x ≠ none ∧ x ≠ some ""`.
External effects (the HTTP call to the LLM endpoint, file loading, the
Slack `chat_postMessage` delivery) are modelled by oracle parameters that
enumerate the outcomes the surrounding Python code distinguishes; an
exception raised by an effect is an `Except.error`.
-/

namespace DV

/-- A knowledge-base entry as handled by `app.py`: a JSON object whose
`question` and `answer` keys may each be absent (`qa.get("question", "")`,
`qa.get("answer")`). -/
structure QAEntry where
  question : Option String
  answer : Option String
deriving DecidableEq

/-- Python `str.lower()`: lower-case every character. -/
def pyLower (s : String) : String :=
  String.mk (s.data.map Char.toLower)

/-- Python `str.strip()`: drop whitespace from both ends. -/
def pyStrip (s : String) : String :=
  String.mk (((s.data.dropWhile Char.isWhitespace).reverse.dropWhile
    Char.isWhitespace).reverse)

/-- Python `s.lower().strip()` as applied by `QADatabase.find_answer`. -/
def normalize (s : String) : String :=
  pyStrip (pyLower s)

/-- The scan loop of `QADatabase.find_answer` (app.py lines 87-90): walk the
entries in load order; on the first entry whose normalized stored question
equals the already-normalized input, return `qa.get("answer")` (which is
absent when the entry has no `answer` key); return `None` if the loop ends. -/
def find_loop (q : String) : List QAEntry → Option String
  | [] => none
  | qa :: rest =>
      if normalize (qa.question.getD "") = q then qa.answer else find_loop q rest

/-- `QADatabase.find_answer` (app.py lines 84-90): normalize the input once,
then scan. -/
def find_answer (db : List QAEntry) (question : String) : Option String :=
  find_loop (normalize question) db

/-- Outcome of the `QADatabase.load_data` attempt (app.py lines 65-82): the
file read and JSON parse either succeed with a list of entries or fail in one
of the three caught ways. -/
inductive LoadOutcome where
  | ok (data : List QAEntry)
  | fileNotFound
  | jsonDecodeError
  | otherError
deriving DecidableEq

/-- `QADatabase.load_data`: on success return the parsed data; every caught
exception branch returns the empty list (app.py lines 74-82). -/
def load_data : LoadOutcome → List QAEntry
  | .ok data => data
  | .fileNotFound => []
  | .jsonDecodeError => []
  | .otherError => []

/-- Outcome of the `requests.post` call to the LLM endpoint together with the
parsing of its body, as distinguished by `get_llm_answer` (app.py lines
126-156).  `ok choices` is an HTTP 200 response whose JSON body parsed; the
`choices` field is absent (or the body falsy) when the outer `Option` is
`none`, and each choice is reduced to its `message.content` string, absent
when either nested key is missing (app.py line 144 defaults it to `""`). -/
inductive ServiceOutcome where
  | ok (choices : Option (List (Option String)))
  | httpError (status : Nat)
  | timeout
  | requestError
  | otherError
deriving DecidableEq

/-- What the LLM branch of `get_llm_answer` returns: on a 200 response with a
non-empty `choices` list, the trimmed content of the first choice (missing
`message`/`content` defaulting to `""`); in every other case execution falls
through to `return None` (app.py lines 136-158). -/
def serviceAnswer : ServiceOutcome → Option String
  | .ok (some (c :: _)) => some (pyStrip (c.getD ""))
  | _ => none

/-- `get_llm_answer` (app.py lines 97-158), with the external call abstracted
to a `ServiceOutcome` oracle.  Returns the answer paired with whether the
external service was invoked.  `if not text` is `text = ""` (the handler
already filtered `None`), and `if direct_answer:` is Python truthiness: a KB
hit whose stored answer is absent or the empty string falls through to the
LLM call. -/
def get_llm_answer (db : List QAEntry) (svc : ServiceOutcome) (text : String) :
    Option String × Bool :=
  if text = "" then (none, false)
  else
    match find_answer db text with
    | some a => if a = "" then (serviceAnswer svc, true) else (some a, false)
    | none => (serviceAnswer svc, true)

/-- An inbound Slack event as read by the handlers: every field comes from
`event.get(...)` and may be absent. -/
structure InboundEvent where
  channel : Option String
  user : Option String
  text : Option String
  ts : Option String
  thread_ts : Option String
deriving DecidableEq

/-- A delivered `chat_postMessage` call of app.py: channel, text and
thread timestamp arguments. -/
structure Sent where
  channel : Option String
  text : String
  thread_ts : Option String
deriving DecidableEq

deriving instance DecidableEq for Except

/-- Fault oracle for the handler body: whether the resolution step raises
(e.g. `find_answer` on malformed data, called outside the try of
`get_llm_answer`), whether the answer `chat_postMessage` raises, and whether
the apology `chat_postMessage` raises. -/
structure FaultModel where
  resolveRaises : Bool
  postRaises : Bool
  apologyRaises : Bool
deriving DecidableEq

/-- The sentinel string the handler compares the final answer against
(app.py line 185). -/
def sentinel : String := "No relevant answer found."

/-- Python `f"..."` interpolation of a possibly-`None` value. -/
def pyStr : Option String → String
  | none => "None"
  | some s => s

/-- The reply text built at app.py line 189: the answer interpolated into a
code block followed by the standing disclaimer. -/
def formatAnswer (answer : Option String) : String :=
  "``` " ++ pyStr answer ++
    " ```\n This Anwer is from LLM, it may be incorrect or misleading or wrong. contact @A_TechyBoy for more info or to give any suggestions.\n\n for more info check https://github.com/A-TechyBoy/DV"

/-- The apology text sent from the exception branch of the handler
(app.py line 200). -/
def apologyText : String := "Sorry, I encountered an error while processing your request."

/-- The channel/thread gate of the `message` handler (app.py line 171):
the channel is one of the two monitored IDs, and `thread_ts` is falsy or
equal to `ts`. -/
def inScope (ev : InboundEvent) : Bool :=
  (ev.channel == some "C088ZPE8WTF" || ev.channel == some "C07PZNMBPBN") &&
    (ev.thread_ts == none || ev.thread_ts == some "" || ev.thread_ts == ev.ts)

/-- Python falsiness of an optional string (`if not text:`). -/
def textFalsy : Option String → Bool
  | none => true
  | some s => s == ""

/-- The `try` block of the `message` handler (app.py lines 172-193):
self-suppression, empty-text guard, resolution, sentinel check, delivery.
`Except.error ()` models an exception escaping the block; `.ok l` returns
the list of messages delivered. -/
def tryBody (botId : String) (db : List QAEntry) (svc : ServiceOutcome)
    (fm : FaultModel) (ev : InboundEvent) : Except Unit (List Sent) :=
  if ev.user = some botId then .ok []
  else if textFalsy ev.text then .ok []
  else if fm.resolveRaises then .error ()
  else
    let answer := (get_llm_answer db svc (ev.text.getD "")).fst
    if answer ≠ some sentinel then
      if fm.postRaises then .error ()
      else .ok [⟨ev.channel, formatAnswer answer, ev.ts⟩]
    else .ok []

/-- The `message` event handler of app.py (lines 161-204): channel/thread
gate, then the `try` block; an exception from the block is caught, the
apology is attempted, and a failure of that delivery is swallowed by the
bare `except:`.  The result is `.ok` with the delivered messages; `.error`
would mean an exception propagated to the transport layer. -/
def message (botId : String) (db : List QAEntry) (svc : ServiceOutcome)
    (fm : FaultModel) (ev : InboundEvent) : Except Unit (List Sent) :=
  if inScope ev then
    match tryBody botId db svc fm ev with
    | .ok posts => .ok posts
    | .error _ =>
        if fm.apologyRaises then .ok []
        else .ok [⟨ev.channel, apologyText, ev.ts⟩]
  else .ok []

/-- The messages a handler invocation delivered. -/
def sentOf : Except Unit (List Sent) → List Sent
  | .ok l => l
  | .error _ => []

/-- Processing a sequence of inbound deliveries one after the other: app.py
keeps no per-event state, so each event is handled by the same pure
`message`. -/
def processEvents (botId : String) (db : List QAEntry) (svc : ServiceOutcome)
    (fm : FaultModel) : List InboundEvent → List Sent
  | [] => []
  | e :: rest =>
      sentOf (message botId db svc fm e) ++ processEvents botId db svc fm rest

end DV

namespace BotPy

/-- `getChatGptResponse` of bot.py (lines 20-21): the identity on the text. -/
def getChatGptResponse (text : Option String) : Option String := text

/-- A delivered `chat_postMessage` call of bot.py: its `text` argument may be
the Python `None` that `event.get('text')` produced. -/
structure BotSent where
  channel : Option String
  text : Option String
  thread_ts : Option String
deriving DecidableEq

/-- The `message` handler of bot.py (lines 23-33): channel gate, then post
unless the sender is the bot itself (`BOT_ID != user_id`). -/
def message (botId : String) (ev : DV.InboundEvent) : List BotSent :=
  if ev.channel = some "#high-seas-help-test" then
    if ¬ ev.user = some botId then
      [⟨ev.channel, getChatGptResponse ev.text, ev.ts⟩]
    else []
  else []

end BotPy

namespace DV

/-! ### Lookup lemmas -/

lemma find_loop_append_none (q : String) (db₁ db₂ : List QAEntry)
    (h : ∀ e ∈ db₁, normalize (e.question.getD "") ≠ q) :
    find_loop q (db₁ ++ db₂) = find_loop q db₂ := by
  induction db₁ with
  | nil => rfl
  | cons qa rest ih =>
      have hqa := h qa (List.mem_cons_self qa rest)
      rw [List.cons_append]
      simp only [find_loop, if_neg hqa]
      exact ih (fun e he => h e (List.mem_cons_of_mem qa he))

lemma find_answer_first (db₁ : List QAEntry) (qa : QAEntry) (db₂ : List QAEntry)
    (q : String)
    (h₁ : ∀ e ∈ db₁, normalize (e.question.getD "") ≠ normalize q)
    (h₂ : normalize (qa.question.getD "") = normalize q) :
    find_answer (db₁ ++ qa :: db₂) q = qa.answer := by
  unfold find_answer
  rw [find_loop_append_none (normalize q) db₁ (qa :: db₂) h₁]
  simp only [find_loop, if_pos h₂]

lemma find_answer_none (db : List QAEntry) (q : String)
    (h : ∀ e ∈ db, normalize (e.question.getD "") ≠ normalize q) :
    find_answer db q = none := by
  have := find_loop_append_none (normalize q) db [] h
  simpa [find_answer] using this

lemma find_answer_norm (db : List QAEntry) (q₁ q₂ : String)
    (h : normalize q₁ = normalize q₂) :
    find_answer db q₁ = find_answer db q₂ := by
  unfold find_answer
  rw [h]

end DV

namespace DV

/-! ### Handler lemmas -/

lemma message_of_tryBody_nil (botId : String) (db : List QAEntry)
    (svc : ServiceOutcome) (fm : FaultModel) (ev : InboundEvent)
    (h : tryBody botId db svc fm ev = .ok []) :
    message botId db svc fm ev = .ok [] := by
  unfold message
  split
  · rw [h]
  · rfl

lemma get_llm_answer_sentinel (db : List QAEntry) (svc : ServiceOutcome)
    (t : String) (ht : t ≠ "") (hfind : find_answer db t = some sentinel) :
    (get_llm_answer db svc t).fst = some sentinel := by
  unfold get_llm_answer
  rw [if_neg ht, hfind]
  have hne : sentinel ≠ "" := by decide
  simp [hne]

lemma tryBody_nil_of_sentinel (botId : String) (db : List QAEntry)
    (svc : ServiceOutcome) (fm : FaultModel) (ev : InboundEvent)
    (hfm : fm.resolveRaises = false)
    (hall : ∀ t, ev.text = some t → t ≠ "" →
      (get_llm_answer db svc t).fst = some sentinel) :
    tryBody botId db svc fm ev = .ok [] := by
  unfold tryBody
  by_cases hu : ev.user = some botId
  · rw [if_pos hu]
  · rw [if_neg hu]
    cases hte : ev.text with
    | none => simp [textFalsy]
    | some t =>
        by_cases ht : t = ""
        · subst ht
          simp [textFalsy]
        · have htf : textFalsy (some t) = false := by simp [textFalsy, ht]
          rw [htf]
          simp only [Bool.false_eq_true, if_false, hfm]
          have hans := hall t hte ht
          simp [hans]

end DV

namespace DV

/-! ### Claim theorems -/

/-- C6: `find_answer` lower-cases and trims both the input and each stored
question; it returns the answer of the first entry in load order whose
normalized question equals the normalized input, returns `none` when no
entry matches, and its result depends on the input question only through
the normalized (case- and surrounding-whitespace-insensitive) form. -/
theorem find_answer_spec :
    (∀ (db₁ : List QAEntry) (qa : QAEntry) (db₂ : List QAEntry) (q : String),
        (∀ e ∈ db₁, normalize (e.question.getD "") ≠ normalize q) →
        normalize (qa.question.getD "") = normalize q →
        find_answer (db₁ ++ qa :: db₂) q = qa.answer) ∧
    (∀ (db : List QAEntry) (q : String),
        (∀ e ∈ db, normalize (e.question.getD "") ≠ normalize q) →
        find_answer db q = none) ∧
    (∀ (db : List QAEntry) (q₁ q₂ : String), normalize q₁ = normalize q₂ →
        find_answer db q₁ = find_answer db q₂) :=
  ⟨find_answer_first, find_answer_none, find_answer_norm⟩

/-- Witness for C6: the second entry is the first normalized match and its
answer is returned; a non-matching base returns `none`; case and
surrounding whitespace in the input do not change the result. -/
theorem find_answer_spec_witness :
    find_answer [⟨some "Other", some "0"⟩, ⟨some " hi THERE ", some "1"⟩,
        ⟨some "hi there", some "2"⟩] "  Hi There" = some "1" ∧
    find_answer [⟨some "a", some "0"⟩] "b" = none ∧
    find_answer [⟨some "x", some "7"⟩] " X " =
      find_answer [⟨some "x", some "7"⟩] "x" := by
  refine ⟨?_, ?_, ?_⟩
  · exact find_answer_spec.1 [⟨some "Other", some "0"⟩]
      ⟨some " hi THERE ", some "1"⟩ [⟨some "hi there", some "2"⟩]
      "  Hi There" (by decide) (by decide)
  · exact find_answer_spec.2.1 [⟨some "a", some "0"⟩] "b" (by decide)
  · exact find_answer_spec.2.2 [⟨some "x", some "7"⟩] " X " "x" (by decide)

/-- C7: every caught load failure (file not found, JSON parse error, any
other exception) makes `load_data` return the empty entry list instead of
propagating the fault. -/
theorem load_failure_empty :
    load_data .fileNotFound = [] ∧ load_data .jsonDecodeError = [] ∧
      load_data .otherError = [] :=
  ⟨rfl, rfl, rfl⟩

/-- C1 counterexample: with the knowledge base `[{question: "q", answer: ""}]`
the question `"q"` matches an entry post-normalization (`find_answer`
returns its stored answer `""`), yet `get_llm_answer` invokes the external
service (second component `true`) and returns the service answer instead of
the stored one, because `if direct_answer:` treats the empty stored answer
as a miss. -/
theorem empty_answer_invokes_llm_cex :
    find_answer [⟨some "q", some ""⟩] "q" = some "" ∧
    get_llm_answer [⟨some "q", some ""⟩] (.ok (some [some "llm says"])) "q" =
      (some "llm says", true) :=
  ⟨by decide, by decide⟩

/-- C1 (amended): for a non-empty question whose normalized form first
matches an entry whose stored answer is present and non-empty, resolution
returns that exact stored answer and the external service is not invoked;
when the first matching stored answer is empty or absent the lookup result
is discarded and the service is invoked instead. -/
theorem kb_first_nonempty_hit_bypasses_llm
    (db₁ : List QAEntry) (qa : QAEntry) (db₂ : List QAEntry)
    (svc : ServiceOutcome) (t a : String)
    (ht : t ≠ "")
    (h₁ : ∀ e ∈ db₁, normalize (e.question.getD "") ≠ normalize t)
    (h₂ : normalize (qa.question.getD "") = normalize t)
    (ha : qa.answer = some a) (hne : a ≠ "") :
    get_llm_answer (db₁ ++ qa :: db₂) svc t = (some a, false) := by
  unfold get_llm_answer
  rw [if_neg ht, find_answer_first db₁ qa db₂ t h₁ h₂, ha]
  simp [hne]

/-- Witness for C1 (amended): a first non-empty normalized hit is returned
verbatim with the service not invoked. -/
theorem kb_first_nonempty_hit_bypasses_llm_witness :
    get_llm_answer [⟨some "other", some "x"⟩, ⟨some "Hello ", some "yo"⟩]
      .timeout " hello" = (some "yo", false) :=
  kb_first_nonempty_hit_bypasses_llm [⟨some "other", some "x"⟩]
    ⟨some "Hello ", some "yo"⟩ [] .timeout " hello" "yo"
    (by decide) (by decide) (by decide) rfl (by decide)

/-- C5 counterexample: a 200 response whose first choice content is all
whitespace trims to the empty string, and `get_llm_answer` returns it as an
answer (`some ""`) rather than the no-answer result `none` the claim
requires for an empty trimmed response. -/
theorem empty_response_returned_as_answer_cex :
    (get_llm_answer [] (.ok (some [some "   "])) "q").fst = some "" ∧
    (get_llm_answer [] (.ok (some [some "   "])) "q").fst ≠ none :=
  ⟨by decide, by decide⟩

/-- C5 (amended): on a true knowledge-base miss (no hit, or a hit whose
stored answer is empty) and a 200 response with a non-empty `choices` list,
the resolver trims whitespace from the first choice content and returns the
trimmed text unconditionally — even when it is empty or equals the
sentinel; the no-answer classification happens only later in the handler. -/
theorem llm_response_trimmed_returned
    (db : List QAEntry) (t : String) (c : Option String)
    (rest : List (Option String))
    (ht : t ≠ "")
    (hmiss : find_answer db t = none ∨ find_answer db t = some "") :
    get_llm_answer db (.ok (some (c :: rest))) t =
      (some (pyStrip (c.getD "")), true) := by
  unfold get_llm_answer
  rw [if_neg ht]
  rcases hmiss with h | h <;> rw [h] <;> simp [serviceAnswer]

/-- Witness for C5 (amended): the padded response `"  ans  "` comes back
trimmed to `"ans"` with the service invoked. -/
theorem llm_response_trimmed_returned_witness :
    get_llm_answer [] (.ok (some [some "  ans  "])) "q" = (some "ans", true) := by
  have h := llm_response_trimmed_returned [] "q" (some "  ans  ") []
    (by decide) (Or.inl rfl)
  have e : pyStrip ((some "  ans  ").getD "") = "ans" := by decide
  rw [e] at h
  exact h

end DV

namespace DV

/-- C10: the handler classifies "no answer" by comparing the final answer
against the sentinel string regardless of origin, so (a) a question whose
knowledge-base lookup yields exactly the sentinel text produces no reply at
all, and (b) a knowledge-base hit whose stored answer is the empty string is
treated as a miss by the truthiness check and the external service is
invoked instead. -/
theorem sentinel_and_empty_kb_answers :
    (∀ (botId : String) (db : List QAEntry) (svc : ServiceOutcome)
        (fm : FaultModel) (ev : InboundEvent) (t : String),
        fm.resolveRaises = false →
        ev.text = some t → t ≠ "" →
        find_answer db t = some sentinel →
        message botId db svc fm ev = .ok []) ∧
    (∀ (db : List QAEntry) (svc : ServiceOutcome) (t : String),
        t ≠ "" → find_answer db t = some "" →
        get_llm_answer db svc t = (serviceAnswer svc, true)) := by
  constructor
  · intro botId db svc fm ev t hfm htext ht hfind
    refine message_of_tryBody_nil botId db svc fm ev ?_
    refine tryBody_nil_of_sentinel botId db svc fm ev hfm ?_
    intro u hu hune
    rw [htext] at hu
    cases hu
    exact get_llm_answer_sentinel db svc t hune hfind
  · intro db svc t ht hfind
    unfold get_llm_answer
    rw [if_neg ht, hfind]
    simp

/-- Witness for C10: a stored sentinel answer yields no reply; a stored
empty answer sends the question to the external service. -/
theorem sentinel_and_empty_kb_answers_witness :
    message "UBOT" [⟨some "q", some "No relevant answer found."⟩] .timeout
        ⟨false, false, false⟩
        ⟨some "C088ZPE8WTF", some "U1", some "q", some "1.0", none⟩ = .ok [] ∧
    get_llm_answer [⟨some "e", some ""⟩] .timeout "e" = (none, true) :=
  ⟨sentinel_and_empty_kb_answers.1 "UBOT"
      [⟨some "q", some "No relevant answer found."⟩] .timeout
      ⟨false, false, false⟩
      ⟨some "C088ZPE8WTF", some "U1", some "q", some "1.0", none⟩ "q"
      rfl rfl (by decide) (by decide),
   sentinel_and_empty_kb_answers.2 [⟨some "e", some ""⟩] .timeout "e"
      (by decide) (by decide)⟩

/-- C4 counterexample: an in-scope event from a normal user whose resolution
yields the sentinel (empty knowledge base, service answering with the
sentinel text) produces no reply at all — `message` delivers the empty list,
not a fixed "no relevant answer" message. -/
theorem notfound_silent_cex :
    message "UBOT" [] (.ok (some [some "No relevant answer found."]))
        ⟨false, false, false⟩
        ⟨some "C088ZPE8WTF", some "U1", some "q", some "1.0", none⟩ =
      .ok [] := by decide

/-- C4 (amended): whenever the resolved answer for the event text equals the
sentinel "No relevant answer found.", the handler delivers no reply at all
(it only logs); there is no fixed no-answer message. -/
theorem sentinel_answer_no_reply
    (botId : String) (db : List QAEntry) (svc : ServiceOutcome)
    (fm : FaultModel) (ev : InboundEvent)
    (hfm : fm.resolveRaises = false)
    (hall : ∀ t, ev.text = some t → t ≠ "" →
      (get_llm_answer db svc t).fst = some sentinel) :
    message botId db svc fm ev = .ok [] :=
  message_of_tryBody_nil botId db svc fm ev
    (tryBody_nil_of_sentinel botId db svc fm ev hfm hall)

/-- Witness for C4 (amended): an in-scope event resolved to the sentinel by
the external service gets no reply. -/
theorem sentinel_answer_no_reply_witness :
    message "UBOT" [] (.ok (some [some "  No relevant answer found. "]))
        ⟨false, true, true⟩
        ⟨some "C07PZNMBPBN", some "U2", some "what", some "2.0", some "2.0"⟩ =
      .ok [] :=
  sentinel_answer_no_reply "UBOT" []
    (.ok (some [some "  No relevant answer found. "])) ⟨false, true, true⟩
    ⟨some "C07PZNMBPBN", some "U2", some "what", some "2.0", some "2.0"⟩
    rfl (fun t ht _ => by injection ht with h; subst h; decide)

end DV

namespace DV

/-- C2 counterexample: the handler keeps no deduplication state, so two
deliveries of the identical event (same channel and `ts`, hence the same
EventKey) processed one after the other each produce a reply: the duplicate
is fully reprocessed and a second, identical reply is delivered. -/
theorem replay_produces_second_reply_cex :
    processEvents "UBOT" [⟨some "hi", some "yo"⟩] .timeout
        ⟨false, false, false⟩
        [⟨some "C088ZPE8WTF", some "U1", some "hi", some "1.0", none⟩,
         ⟨some "C088ZPE8WTF", some "U1", some "hi", some "1.0", none⟩] =
      [⟨some "C088ZPE8WTF", formatAnswer (some "yo"), some "1.0"⟩,
       ⟨some "C088ZPE8WTF", formatAnswer (some "yo"), some "1.0"⟩] := by
  decide

/-- C2 (amended): the handler has no deduplication gate; it is a pure
function of the event, so replaying the same event after the first
processing has completed repeats whatever delivery the first processing
performed, rather than dropping the duplicate. -/
theorem replay_repeats_reply
    (botId : String) (db : List QAEntry) (svc : ServiceOutcome)
    (fm : FaultModel) (e : InboundEvent) (r : List Sent)
    (h : message botId db svc fm e = .ok r) :
    processEvents botId db svc fm [e, e] = r ++ r := by
  simp [processEvents, sentOf, h]

/-- Witness for C2 (amended): a replayed event gets its reply delivered a
second time. -/
theorem replay_repeats_reply_witness :
    processEvents "UBOT" [⟨some "ping", some "pong"⟩] .requestError
        ⟨false, false, false⟩
        [⟨some "C07PZNMBPBN", some "U9", some "Ping", some "7.7", some "7.7"⟩,
         ⟨some "C07PZNMBPBN", some "U9", some "Ping", some "7.7", some "7.7"⟩] =
      [⟨some "C07PZNMBPBN", formatAnswer (some "pong"), some "7.7"⟩,
       ⟨some "C07PZNMBPBN", formatAnswer (some "pong"), some "7.7"⟩] :=
  replay_repeats_reply "UBOT" [⟨some "ping", some "pong"⟩] .requestError
    ⟨false, false, false⟩
    ⟨some "C07PZNMBPBN", some "U9", some "Ping", some "7.7", some "7.7"⟩
    [⟨some "C07PZNMBPBN", formatAnswer (some "pong"), some "7.7"⟩]
    (by decide)

/-- C3: when the external service fails with HTTP 500 on a true
knowledge-base miss, `get_llm_answer` collapses the failure to `None`
without raising, and the handler — whose only no-reply test is the sentinel
comparison — posts the normal answer template with the literal text "None"
interpolated, which is not the fixed apology text. -/
theorem http500_posts_none_template :
    message "UBOT" [] (.httpError 500) ⟨false, false, false⟩
        ⟨some "C088ZPE8WTF", some "U1", some "q", some "1.0", none⟩ =
      .ok [⟨some "C088ZPE8WTF", formatAnswer none, some "1.0"⟩] ∧
    get_llm_answer [] (.httpError 500) "q" = (none, true) ∧
    formatAnswer none ≠ apologyText :=
  ⟨by decide, by decide, by decide⟩

end DV

namespace DV

/-- C8: in both handlers, an event whose user equals the bot identity
produces no `chat_postMessage` call at all. -/
theorem self_message_no_reply :
    (∀ (botId : String) (db : List QAEntry) (svc : ServiceOutcome)
        (fm : FaultModel) (ev : InboundEvent), ev.user = some botId →
        message botId db svc fm ev = .ok []) ∧
    (∀ (botId : String) (ev : InboundEvent), ev.user = some botId →
        BotPy.message botId ev = []) := by
  constructor
  · intro botId db svc fm ev h
    refine message_of_tryBody_nil botId db svc fm ev ?_
    unfold tryBody
    rw [if_pos h]
  · intro botId ev h
    unfold BotPy.message
    by_cases hc : ev.channel = some "#high-seas-help-test"
    · rw [if_pos hc, if_neg (not_not_intro h)]
    · rw [if_neg hc]

/-- Witness for C8: a self-message in a monitored channel gets no reply in
either handler. -/
theorem self_message_no_reply_witness :
    message "UBOT" [⟨some "hi", some "yo"⟩] .timeout ⟨false, false, false⟩
        ⟨some "C088ZPE8WTF", some "UBOT", some "hi", some "3.0", none⟩ =
      .ok [] ∧
    BotPy.message "UBOT"
        ⟨some "#high-seas-help-test", some "UBOT", some "x", some "1", none⟩ =
      [] :=
  ⟨self_message_no_reply.1 "UBOT" [⟨some "hi", some "yo"⟩] .timeout
      ⟨false, false, false⟩
      ⟨some "C088ZPE8WTF", some "UBOT", some "hi", some "3.0", none⟩ rfl,
   self_message_no_reply.2 "UBOT"
      ⟨some "#high-seas-help-test", some "UBOT", some "x", some "1", none⟩ rfl⟩

/-- C9: for every event and every combination of faults, the handler returns
`.ok` — no exception ever propagates to the transport layer — and a fault
escaping the try block of an in-scope event is converted into a best-effort
delivery of the fixed apology text, which is itself dropped (only logged)
when that delivery also fails. -/
theorem handler_never_propagates :
    (∀ (botId : String) (db : List QAEntry) (svc : ServiceOutcome)
        (fm : FaultModel) (ev : InboundEvent),
        ∃ r, message botId db svc fm ev = .ok r) ∧
    (∀ (botId : String) (db : List QAEntry) (svc : ServiceOutcome)
        (fm : FaultModel) (ev : InboundEvent),
        inScope ev = true →
        tryBody botId db svc fm ev = .error () →
        message botId db svc fm ev =
          if fm.apologyRaises then .ok []
          else .ok [⟨ev.channel, apologyText, ev.ts⟩]) := by
  constructor
  · intro botId db svc fm ev
    unfold message
    split
    · split
      · exact ⟨_, rfl⟩
      · by_cases hap : fm.apologyRaises = true
        · rw [if_pos hap]
          exact ⟨[], rfl⟩
        · rw [if_neg hap]
          exact ⟨[⟨ev.channel, apologyText, ev.ts⟩], rfl⟩
    · exact ⟨[], rfl⟩
  · intro botId db svc fm ev hs htb
    unfold message
    simp [hs, htb]

/-- Witness for C9: a resolution fault on an in-scope event ends in the
apology being delivered, with the handler still returning normally. -/
theorem handler_never_propagates_witness :
    message "UBOT" [] .requestError ⟨true, false, false⟩
        ⟨some "C088ZPE8WTF", some "U3", some "z", some "3.0", none⟩ =
      .ok [⟨some "C088ZPE8WTF", apologyText, some "3.0"⟩] := by
  have h := handler_never_propagates.2 "UBOT" [] .requestError
      ⟨true, false, false⟩
      ⟨some "C088ZPE8WTF", some "U3", some "z", some "3.0", none⟩
      (by decide) (by decide)
  simpa using h

end DV
